import Mathlib

/-!
Shallow embedding of the KoboldAI-Horde matching-and-accounting engine
(`server_classes.py`) and proofs about its behaviour.

Conventions of the embedding:
* Python floats with `round(x, k)` become rationals (`ℚ`) with an explicit
  round-to-`k`-decimals function; the claims under study never exercise the
  tie-breaking or binary-representation artifacts of IEEE floats.
* Timestamps (`datetime.now()`, `timedelta.seconds`) become integers counting
  whole seconds; `(a - b).seconds` becomes integer subtraction (all elapsed
  intervals of interest are nonnegative and under a day).
* Mutation becomes explicit state passing: a Python method that mutates
  `self` becomes a Lean function returning the updated record.
* Code that raises an exception (`ZeroDivisionError` in `chars / seconds`)
  returns `Option`, with `none` for the raising run.
-/

/-- Round a rational to the nearest integer, halves toward positive infinity.
Models Python's round-to-nearest for the exact (non-tie) values appearing in
the development. -/
def rndNearest (y : ℚ) : ℤ := (y + 1/2).num.fdiv ((y + 1/2).den : ℤ)

/-- Python `round(x, 2)`. -/
def round2 (x : ℚ) : ℚ := (rndNearest (x * 100) : ℚ) / 100

/-- Python `round(x, 1)`. -/
def round1 (x : ℚ) : ℚ := (rndNearest (x * 10) : ℚ) / 10

/-- The keys of `User.kudos_details` (source lines 346-350). -/
inductive UserAction
  | accumulated
  | gifted
  | received
deriving DecidableEq

/-- A user ledger: the fields of `User` (source lines 342-408) that the
accounting operations read or write.  `kudos_details` is split into its three
fixed keys. -/
structure User where
  username : String := ""
  uid : ℤ := 0
  oauth_id : String := ""
  api_key : String := ""
  kudos : ℚ := 0
  accumulated : ℚ := 0
  gifted : ℚ := 0
  received : ℚ := 0
  usage_chars : ℤ := 0
  usage_requests : ℤ := 0
  contrib_chars : ℤ := 0
  contrib_fulfillments : ℤ := 0
deriving DecidableEq

/-- `kudos_details[action]` read. -/
def User.detail (u : User) : UserAction → ℚ
  | UserAction.accumulated => u.accumulated
  | UserAction.gifted => u.gifted
  | UserAction.received => u.received

/-- `kudos_details[action] = v` write. -/
def User.setDetail (u : User) (a : UserAction) (v : ℚ) : User :=
  match a with
  | UserAction.accumulated => { u with accumulated := v }
  | UserAction.gifted => { u with gifted := v }
  | UserAction.received => { u with received := v }

/-- `User.modify_kudos` (source lines 406-408):
`self.kudos = round(self.kudos + kudos, 2)` and
`self.kudos_details[action] = round(self.kudos_details.get(action,0) + kudos, 2)`.
Note the detail receives the *signed* delta on the user side. -/
def User.modify_kudos (u : User) (kudos : ℚ) (action : UserAction) : User :=
  let u := { u with kudos := round2 (u.kudos + kudos) }
  u.setDetail action (round2 (u.detail action + kudos))

/-- `User.record_usage` (source lines 393-396). -/
def User.record_usage (u : User) (chars : ℤ) (kudos : ℚ) : User :=
  let u := { u with usage_chars := u.usage_chars + chars,
                    usage_requests := u.usage_requests + 1 }
  u.modify_kudos (-kudos) UserAction.accumulated

/-- `User.record_contributions` (source lines 398-401). -/
def User.record_contributions (u : User) (chars : ℤ) (kudos : ℚ) : User :=
  let u := { u with contrib_chars := u.contrib_chars + chars,
                    contrib_fulfillments := u.contrib_fulfillments + 1 }
  u.modify_kudos kudos UserAction.accumulated

/-- `User.record_uptime` (source lines 403-404). -/
def User.record_uptime (u : User) (kudos : ℚ) : User :=
  u.modify_kudos kudos UserAction.accumulated

/-- The keys of `KAIServer.kudos_details` (source lines 156-159). -/
inductive ServerAction
  | generated
  | uptime
deriving DecidableEq

/-- A worker record: the fields of `KAIServer` (source lines 153-267) that the
claims exercise.  `last_check_in` is `none` while the attribute has never been
set (a brand-new worker), which `is_stale` treats as stale
(the `AttributeError` branch of source lines 260-267). -/
structure KAIServer where
  user : User := {}
  name : String := ""
  id : String := ""
  model : String := ""
  max_length : ℤ := 0
  max_content_length : ℤ := 0
  softprompts : List String := []
  contributions : ℤ := 0
  fulfilments : ℤ := 0
  kudos : ℚ := 0
  kudos_generated : ℚ := 0
  kudos_uptime : ℚ := 0
  performances : List ℚ := []
  uptime : ℤ := 0
  last_check_in : Option ℤ := none
  last_reward_uptime : ℤ := 0
  uptime_reward_threshold : ℤ := 600
deriving DecidableEq

/-- Worker-side `kudos_details[action]` read. -/
def KAIServer.detail (s : KAIServer) : ServerAction → ℚ
  | ServerAction.generated => s.kudos_generated
  | ServerAction.uptime => s.kudos_uptime

/-- `KAIServer.modify_kudos` (source lines 249-251):
`self.kudos = round(self.kudos + kudos, 2)` and
`self.kudos_details[action] = round(self.kudos_details.get(action,0) + abs(kudos), 2)`.
Note the detail receives the *absolute value* on the worker side. -/
def KAIServer.modify_kudos (s : KAIServer) (kudos : ℚ) (action : ServerAction) : KAIServer :=
  let s := { s with kudos := round2 (s.kudos + kudos) }
  match action with
  | ServerAction.generated => { s with kudos_generated := round2 (s.kudos_generated + |kudos|) }
  | ServerAction.uptime => { s with kudos_uptime := round2 (s.kudos_uptime + |kudos|) }

/-- `KAIServer.is_stale` (source lines 260-267), as a function of the current
time `now`. -/
def KAIServer.is_stale (s : KAIServer) (now : ℤ) : Bool :=
  match s.last_check_in with
  | none => true
  | some t => decide (now - t > 300)

/-- `Database.record_fulfilment` (source lines 556-559), acting on the
`stats["fulfilment_times"]` rolling list. -/
def record_fulfilment (fulfilment_times : List ℚ) (token_per_sec : ℚ) : List ℚ :=
  (if fulfilment_times.length ≥ 10 then fulfilment_times.tail else fulfilment_times)
    ++ [token_per_sec]

/-- `KAIServer.record_contribution` (source lines 238-247).  The Python
`chars / seconds_taken` raises `ZeroDivisionError` when `seconds_taken == 0`;
that run is modelled as `none`, before any state is mutated (the division is
the first statement of the method).  Returns the updated worker (whose `user`
field is the updated owning user) together with the updated global
`fulfilment_times` list. -/
def KAIServer.record_contribution (s : KAIServer) (fulfilment_times : List ℚ)
    (chars : ℤ) (kudos : ℚ) (seconds_taken : ℤ) : Option (KAIServer × List ℚ) :=
  if seconds_taken = 0 then none
  else
    let perf := round1 ((chars : ℚ) / (seconds_taken : ℚ))
    let s := { s with user := s.user.record_contributions chars kudos }
    let s := s.modify_kudos kudos ServerAction.generated
    let fulfilment_times := record_fulfilment fulfilment_times perf
    let s := { s with contributions := s.contributions + chars,
                      fulfilments := s.fulfilments + 1 }
    let perfs := s.performances ++ [perf]
    some ({ s with performances := if perfs.length > 20 then perfs.tail else perfs },
          fulfilment_times)

/-- `KAIServer.check_in` (source lines 176-195).  `mult` stands for
`self._db.calculate_model_multiplier` (an external model-registry lookup,
memoised in the database; the claims treat it as an arbitrary function). -/
def KAIServer.check_in (s : KAIServer) (now : ℤ) (mult : String → ℚ) (model : String)
    (max_length max_content_length : ℤ) (softprompts : List String) : KAIServer :=
  let s :=
    if s.is_stale now = false then
      let s := { s with uptime := s.uptime + (now - s.last_check_in.getD now) }
      if s.uptime - s.last_reward_uptime > s.uptime_reward_threshold then
        let k := round2 (mult model / (2.75 : ℚ))
        let s := s.modify_kudos k ServerAction.uptime
        let s := { s with user := s.user.record_uptime k }
        { s with last_reward_uptime := s.uptime }
      else s
    else
      { s with last_reward_uptime := s.uptime }
  { s with last_check_in := some now, model := model,
           max_content_length := max_content_length, max_length := max_length,
           softprompts := softprompts }

/-- The generation parameters dictionary (`params`), restricted to the keys
the core reads: `n`, `max_length`, `max_content_length` (source lines 17-23).
`none` models an absent key. -/
structure GenParams where
  n : Option ℤ := none
  max_length : Option ℤ := none
  max_content_length : Option ℤ := none
deriving DecidableEq

/-- `gen_payload` (source lines 26-30): the `params` dictionary after
`gen_payload["prompt"] = prompt` and `gen_payload["n"] = 1`. -/
structure GenPayload where
  params : GenParams := {}
  prompt : String := ""
deriving DecidableEq

/-- `ProcessingGeneration` (source lines 122-150).  `generation = none` models
the initial `None`; the UUID `id` and the back-references (held by the
indexes) are not modelled. -/
structure ProcessingGeneration where
  model : String := ""
  generation : Option String := none
  start_time : ℤ := 0
deriving DecidableEq

/-- `ProcessingGeneration.is_completed` (source lines 145-146):
`bool(self.generation)` — false for `None` and for the empty string. -/
def ProcessingGeneration.is_completed (g : ProcessingGeneration) : Bool :=
  match g.generation with
  | none => false
  | some s => !s.isEmpty

/-- `WaitingPrompt` (source lines 7-37): the fields the claims exercise.  The
submitting user is embedded (`self.user`); `_db`, the UUID and the index
back-references are not modelled. -/
structure WaitingPrompt where
  prompt : String := ""
  user : User := {}
  models : List String := []
  params : GenParams := {}
  n : ℤ := 0
  max_length : ℤ := 80
  max_content_length : ℤ := 1024
  total_usage : ℤ := 0
  gen_payload : GenPayload := {}
  processing_gens : List ProcessingGeneration := []
  last_process_time : ℤ := 0
  servers : List String := []
  softprompts : List String := [""]
  stale_time : ℤ := 600
deriving DecidableEq

/-- `WaitingPrompt.__init__` (source lines 9-37): reads `n` from `params`
(default 1), clamps it to 20, reads the length limits (defaults 80 and 1024),
and builds `gen_payload` as `params` with the prompt embedded and `n`
overwritten to 1. -/
def WaitingPrompt.init (prompt : String) (user : User) (models : List String)
    (params : GenParams) (servers : List String) (softprompts : List String)
    (now : ℤ) : WaitingPrompt :=
  let n0 := params.n.getD 1
  { prompt := prompt
    user := user
    models := models
    params := params
    n := if n0 > 20 then 20 else n0
    max_length := params.max_length.getD 80
    max_content_length := params.max_content_length.getD 1024
    total_usage := 0
    gen_payload := { params := { params with n := some 1 }, prompt := prompt }
    processing_gens := []
    last_process_time := now
    servers := servers
    softprompts := softprompts
    stale_time := 600 }

/-- `WaitingPrompt.needs_gen` (source lines 49-50). -/
def WaitingPrompt.needs_gen (wp : WaitingPrompt) : Bool :=
  decide (wp.n > 0)

/-- The dispatch record returned by `start_generation` (source lines 59-63).
The Generation UUID field is not modelled (it is a fresh `uuid4`). -/
structure DispatchRecord where
  payload : GenPayload
  softprompt : String
deriving DecidableEq

/-- `WaitingPrompt.start_generation` (source lines 52-63): bails out (Python
returns `None`) when `n <= 0`; otherwise appends a fresh Generation bound to
the worker, decrements `n`, refreshes `last_process_time` and returns the
dispatch record carrying `gen_payload`. -/
def WaitingPrompt.start_generation (wp : WaitingPrompt) (server : KAIServer)
    (matching_softprompt : String) (now : ℤ) : WaitingPrompt × Option DispatchRecord :=
  if wp.n ≤ 0 then (wp, none)
  else
    let new_gen : ProcessingGeneration :=
      { model := server.model, generation := none, start_time := now }
    let wp := { wp with processing_gens := wp.processing_gens ++ [new_gen],
                        n := wp.n - 1,
                        last_process_time := now }
    (wp, some { payload := wp.gen_payload, softprompt := matching_softprompt })

/-- `WaitingPrompt.record_usage` (source lines 97-100). -/
def WaitingPrompt.record_usage (wp : WaitingPrompt) (chars : ℤ) (kudos : ℚ)
    (now : ℤ) : WaitingPrompt :=
  { wp with total_usage := wp.total_usage + chars,
            user := wp.user.record_usage chars kudos,
            last_process_time := now }

/-- `Database.convert_chars_to_kudos` (source lines 650-652), with the
memoised model multiplier abstracted as `mult`. -/
def convert_chars_to_kudos (mult : String → ℚ) (chars : ℤ) (model_name : String) : ℚ :=
  round2 ((chars : ℚ) * mult model_name / 100)

/-- The slice of mutable state touched by `ProcessingGeneration.set_generation`:
the generation itself, the fulfilling worker (whose `user` field is the
worker's owning user), the owning prompt (whose `user` field is the submitting
user) and the global `stats["fulfilment_times"]` list.  In the source, the
generation object is also an element of `owner.processing_gens`; the list
cell's content changes through the alias, but never the list's length. -/
structure SGState where
  gen : ProcessingGeneration := {}
  server : KAIServer := {}
  owner : WaitingPrompt := {}
  fulfilment_times : List ℚ := []
deriving DecidableEq

/-- `ProcessingGeneration.set_generation` (source lines 134-143): a no-op
returning 0 when the generation is already completed; otherwise stores the
text, converts its length to kudos, settles the contribution on the worker
(`record_contribution`, which divides by the elapsed whole seconds — `none`
models its `ZeroDivisionError` run) and the usage on the owner prompt, and
returns the character count. -/
def set_generation (st : SGState) (generation : String) (now : ℤ)
    (mult : String → ℚ) : Option (SGState × ℤ) :=
  if st.gen.is_completed then some (st, 0)
  else
    let gen := { st.gen with generation := some generation }
    let chars : ℤ := (generation.length : ℤ)
    let kudos := convert_chars_to_kudos mult chars gen.model
    match st.server.record_contribution st.fulfilment_times chars kudos
        (now - st.gen.start_time) with
    | none => none
    | some (server, fulfilment_times) =>
      let owner := st.owner.record_usage chars kudos now
      some ({ gen := gen, server := server, owner := owner,
              fulfilment_times := fulfilment_times }, chars)

/-- Python `a == b[:len(a)]` test used below: does `b` start with `a`? -/
def startsWith : List Char → List Char → Bool
  | [], _ => true
  | _ :: _, [] => false
  | a :: as, b :: bs => a == b && startsWith as bs

/-- Python's containment test `a in b` on strings (contiguous substring). -/
def isSubstr (a : List Char) : List Char → Bool
  | [] => a.isEmpty
  | b :: bs => startsWith a (b :: bs) || isSubstr a bs

/-- The substring relation, stated structurally: `a` occurs contiguously
inside `b`. -/
def IsSub (a b : List Char) : Prop := ∃ s t, b = s ++ a ++ t

/-- The five `skipped_reason` tags of `KAIServer.can_generate`
(source lines 207-236). -/
inductive SkippedReason
  | server_id
  | models
  | max_content_length
  | max_length
  | matching_softprompt
deriving DecidableEq

/-- `KAIServer.can_generate` (source lines 207-236).  Each failing check sets
`is_matching = False` and overwrites `skipped_reason` with its own tag, so the
surviving tag is the last failing check's.  The double soft-prompt loop
(with its breaks) computes exactly: some requested `sp` is the empty string or
occurs inside some advertised soft-prompt name. -/
def KAIServer.can_generate (s : KAIServer) (wp : WaitingPrompt) :
    Bool × Option SkippedReason :=
  let st : Bool × Option SkippedReason := (true, none)
  let st := if wp.servers.length ≥ 1 ∧ s.id ∉ wp.servers
            then (false, some SkippedReason.server_id) else st
  let st := if wp.models.length ≥ 1 ∧ s.model ∉ wp.models
            then (false, some SkippedReason.models) else st
  let st := if s.max_content_length < wp.max_content_length
            then (false, some SkippedReason.max_content_length) else st
  let st := if s.max_length < wp.max_length
            then (false, some SkippedReason.max_length) else st
  let matching_softprompt :=
    wp.softprompts.any fun sp =>
      sp == "" || s.softprompts.any fun nm => isSubstr sp.toList nm.toList
  if matching_softprompt = false
  then (false, some SkippedReason.matching_softprompt) else st

/-- `PromptsIndex.get_waiting_wp_by_kudos` (source lines 333-335):
`sorted(values, key=lambda x: x.user.kudos, reverse=True)` — a stable sort,
descending on the submitting user's current kudos — followed by the
`needs_gen` filter.  `index` is `self._index.values()` in insertion order
(Python dictionaries preserve insertion order). -/
def get_waiting_wp_by_kudos (index : List WaitingPrompt) : List WaitingPrompt :=
  (index.mergeSort fun x y => decide (y.user.kudos ≤ x.user.kudos)).filter
    (fun wp => wp.needs_gen)

/-- The `Database` state needed by the kudos-transfer operations
(source lines 448-629): the user table in insertion order, the position of
the distinguished anonymous user, and the `ALLOW_ANONYMOUS` flag.  Users are
identified by their position in the list, modelling Python object identity
(`user == self.anon` compares positions). -/
structure Database where
  users : List User := []
  anon : ℕ := 0
  ALLOW_ANONYMOUS : Bool := true
deriving DecidableEq

/-- Read the user object at position `i` (a dangling position yields the
default user; the theorems always supply in-range positions). -/
def Database.getUser (db : Database) (i : ℕ) : User :=
  (db.users[i]?).getD {}

/-- Overwrite the user object at position `i`. -/
def Database.setUser (db : Database) (i : ℕ) (u : User) : Database :=
  { db with users := db.users.set i u }

/-- `Database.find_user_by_username` (source lines 582-587): scan the user
table in order for the first user whose `username` and `id` match the parsed
`name#id` alias (the alias is modelled already split into its two parts);
the anonymous user is filtered through the `ALLOW_ANONYMOUS` condition
exactly as written in the source. -/
def Database.find_user_by_username (db : Database) (uname : String) (uid : ℤ) :
    Option ℕ :=
  match db.users.findIdx? (fun u => u.username == uname && u.uid == uid) with
  | none => none
  | some i => if i = db.anon ∧ db.ALLOW_ANONYMOUS = false then none else some i

/-- `Database.find_user_by_api_key` (source lines 589-597): first user whose
`api_key` matches, filtered through the anonymous condition. -/
def Database.find_user_by_api_key (db : Database) (api_key : String) : Option ℕ :=
  match db.users.findIdx? (fun u => u.api_key == api_key) with
  | none => none
  | some i => if i = db.anon ∧ db.ALLOW_ANONYMOUS = false then none else some i

/-- `Database.transfer_kudos` (source lines 602-607). -/
def Database.transfer_kudos (db : Database) (source_user dest_user : ℕ)
    (amount : ℚ) : Database × ℚ × String :=
  if amount > (db.getUser source_user).kudos then
    (db, 0, "Not enough kudos.")
  else
    let db := db.setUser source_user
      ((db.getUser source_user).modify_kudos (-amount) UserAction.gifted)
    let db := db.setUser dest_user
      ((db.getUser dest_user).modify_kudos amount UserAction.received)
    (db, amount, "OK")

/-- `Database.transfer_kudos_to_username` (source lines 609-617). -/
def Database.transfer_kudos_to_username (db : Database) (source_user : ℕ)
    (dest_uname : String) (dest_uid : ℤ) (amount : ℚ) : Database × ℚ × String :=
  match db.find_user_by_username dest_uname dest_uid with
  | none => (db, 0, "Invalid target username.")
  | some dest_user =>
    if dest_user = db.anon then
      (db, 0, "Tried to burn kudos via sending to Anonymous. Assuming PEBKAC and aborting.")
    else if dest_user = source_user then
      (db, 0, "Cannot send kudos to yourself, ya monkey!")
    else
      db.transfer_kudos source_user dest_user amount

/-- `Database.transfer_kudos_from_apikey_to_username` (source lines 619-629). -/
def Database.transfer_kudos_from_apikey_to_username (db : Database)
    (source_api_key : String) (dest_uname : String) (dest_uid : ℤ)
    (amount : ℚ) : Database × ℚ × String :=
  match db.find_user_by_api_key source_api_key with
  | none => (db, 0, "Invalid API Key.")
  | some source_user =>
    if source_user = db.anon then
      (db, 0, "You cannot transfer Kudos from Anonymous, smart-ass.")
    else
      db.transfer_kudos_to_username source_user dest_uname dest_uid amount

/-- A three-user table for evaluating the transfer operations on concrete
inputs: the anonymous user at position 0, then two ordinary users, with
alice's starting balance a parameter. -/
def sampleUsers (aliceKudos : ℚ) : Database :=
  { users := [{ username := "Anonymous", oauth_id := "anon", api_key := "0000000000" },
              { username := "alice", uid := 1, api_key := "akey", kudos := aliceKudos },
              { username := "bob", uid := 2, api_key := "bkey" }],
    anon := 0 }

/-- The `skipped_reason` predicted by the specification: the tag of the last
failing check in the enumeration order `server_id`, `models`,
`max_content_length`, `max_length`, `matching_softprompt` (so the latest
failing check in that order wins).  Stated from the spec's words, to be
compared against the tag `can_generate` computes. -/
def lastFailingTag (s : KAIServer) (wp : WaitingPrompt) : Option SkippedReason :=
  if (wp.softprompts.any fun sp =>
        sp == "" || s.softprompts.any fun nm => isSubstr sp.toList nm.toList) = false
  then some SkippedReason.matching_softprompt
  else if s.max_length < wp.max_length then some SkippedReason.max_length
  else if s.max_content_length < wp.max_content_length then some SkippedReason.max_content_length
  else if wp.models.length ≥ 1 ∧ s.model ∉ wp.models then some SkippedReason.models
  else if wp.servers.length ≥ 1 ∧ s.id ∉ wp.servers then some SkippedReason.server_id
  else none

/-- `rndNearest` is rounding to the nearest integer, halves up. -/
theorem rndNearest_eq (y : ℚ) : rndNearest y = ⌊y + 1/2⌋ := by
  rw [rndNearest, Rat.floor_def, Int.fdiv_eq_ediv _ (Int.ofNat_nonneg _)]

/-- Evaluation rule for `round2` at a concrete value. -/
theorem round2_eq (x : ℚ) (z : ℤ) (h1 : (z : ℚ) ≤ x * 100 + 1/2)
    (h2 : x * 100 + 1/2 < z + 1) : round2 x = (z : ℚ) / 100 := by
  rw [round2, rndNearest_eq, Int.floor_eq_iff.mpr ⟨h1, h2⟩]

/-- C1, amended.  `modify_kudos` adds the rounded signed delta to the kudos
balance on both sides; the named `kudos_details` entry receives the *signed*
delta on the user side (for every user action — `gifted` and `received`
included, not only `accumulated`) and the *absolute value* on the worker
side; all other detail entries are untouched. -/
theorem c1_modify_kudos_signed_vs_abs (u : User) (s : KAIServer) (d : ℚ)
    (a : UserAction) (act : ServerAction) :
    (u.modify_kudos d a).kudos = round2 (u.kudos + d)
    ∧ (u.modify_kudos d a).detail a = round2 (u.detail a + d)
    ∧ (∀ b : UserAction, b ≠ a → (u.modify_kudos d a).detail b = u.detail b)
    ∧ (s.modify_kudos d act).kudos = round2 (s.kudos + d)
    ∧ (s.modify_kudos d act).detail act = round2 (s.detail act + |d|)
    ∧ (∀ c : ServerAction, c ≠ act → (s.modify_kudos d act).detail c = s.detail c) := by
  have hu1 : (u.modify_kudos d a).kudos = round2 (u.kudos + d) := by
    cases a <;> simp [User.modify_kudos, User.setDetail]
  have hu2 : (u.modify_kudos d a).detail a = round2 (u.detail a + d) := by
    cases a <;> simp [User.modify_kudos, User.setDetail, User.detail]
  have hu3 : ∀ b : UserAction, b ≠ a → (u.modify_kudos d a).detail b = u.detail b := by
    intro b hb
    cases a <;> cases b <;>
      simp_all [User.modify_kudos, User.setDetail, User.detail]
  have hs1 : (s.modify_kudos d act).kudos = round2 (s.kudos + d) := by
    cases act <;> simp [KAIServer.modify_kudos]
  have hs2 : (s.modify_kudos d act).detail act = round2 (s.detail act + |d|) := by
    cases act <;> simp [KAIServer.modify_kudos, KAIServer.detail]
  have hs3 : ∀ c : ServerAction, c ≠ act → (s.modify_kudos d act).detail c = s.detail c := by
    intro c hc
    cases act <;> cases c <;>
      simp_all [KAIServer.modify_kudos, KAIServer.detail]
  exact ⟨hu1, hu2, hu3, hs1, hs2, hs3⟩

/-- Witness for `c1_modify_kudos_signed_vs_abs` at a concrete input. -/
theorem c1_modify_kudos_signed_vs_abs_witness :
    (User.modify_kudos {} (-5) UserAction.gifted).detail UserAction.received
      = ({} : User).detail UserAction.received
    ∧ (User.modify_kudos {} (-5) UserAction.gifted).detail UserAction.gifted
      = round2 (({} : User).detail UserAction.gifted + (-5)) :=
  ⟨(c1_modify_kudos_signed_vs_abs {} {} (-5) UserAction.gifted
      ServerAction.generated).2.2.1 UserAction.received (by decide),
   (c1_modify_kudos_signed_vs_abs {} {} (-5) UserAction.gifted
      ServerAction.generated).2.1⟩

/-- C1 counterexample.  On a fresh user, `modify_kudos(-5, "gifted")` leaves
`kudos_details["gifted"] == -5`: the user-side detail receives the signed
delta, not the absolute value `5` the claim asserts. -/
theorem c1_user_gifted_counterexample :
    (User.modify_kudos {} (-5) UserAction.gifted).gifted = -5
    ∧ round2 (({} : User).gifted + |(-5 : ℚ)|) = 5
    ∧ (-5 : ℚ) ≠ 5 := by
  refine ⟨?_, ?_, by norm_num⟩
  · show round2 (0 + -5) = -5
    rw [round2_eq _ (-500) (by norm_num) (by norm_num)]; norm_num
  · show round2 (0 + |(-5 : ℚ)|) = 5
    rw [show |(-5 : ℚ)| = 5 by norm_num,
        round2_eq _ 500 (by norm_num) (by norm_num)]
    norm_num

/-- C2, failing input.  The source passes `(now - start_time).seconds` to
`record_contribution` with no floor: for a generation delivered within the
second it started (elapsed seconds = 0) the value passed is 0, not 1, and
the division `chars / seconds_taken` raises `ZeroDivisionError` (modelled as
`none`).  Evaluated on a fresh generation (`start_time = 0`) completed with
the text `"abc"` at `now = 0`. -/
theorem c2_seconds_not_floored :
    set_generation {} "abc" 0 (fun _ => 1) = none
    ∧ (0 : ℤ) - ({} : SGState).gen.start_time = 0
    ∧ KAIServer.record_contribution {} [] 3 0 0 = none := by
  refine ⟨rfl, rfl, rfl⟩

/-- Reading back the user just written. -/
theorem getUser_setUser_self (db : Database) (i : ℕ) (u : User)
    (h : i < db.users.length) : (db.setUser i u).getUser i = u := by
  simp [Database.getUser, Database.setUser, List.getElem?_set_self h]

/-- Writing one user leaves every other position unchanged. -/
theorem getUser_setUser_other (db : Database) (i j : ℕ) (u : User)
    (h : i ≠ j) : (db.setUser i u).getUser j = db.getUser j := by
  simp [Database.getUser, Database.setUser, List.getElem?_set_ne h]

/-- C3.  Kudos transfers: (1) whenever the amount exceeds the source user's
current balance, `transfer_kudos` returns `(0, "Not enough kudos.")` with the
database untouched; (2) every failing run of the full transfer chain
(invalid API key, anonymous source, unknown destination, anonymous
destination, destination equal to source, insufficient balance) leaves the
user table exactly as it was; (3) on success the source balance drops by the
amount under action `gifted`, the destination balance rises by it under
action `received`, and `(amount, "OK")` is returned. -/
theorem c3_transfer_kudos_spec (db : Database) (src dst : ℕ) (amount : ℚ)
    (key uname : String) (uid : ℤ) :
    (amount > (db.getUser src).kudos →
      db.transfer_kudos src dst amount = (db, 0, "Not enough kudos."))
    ∧ (∀ db2 r msg,
        db.transfer_kudos_from_apikey_to_username key uname uid amount = (db2, r, msg) →
        msg ≠ "OK" → db2 = db)
    ∧ (¬ amount > (db.getUser src).kudos → src ≠ dst →
        src < db.users.length → dst < db.users.length →
        ((db.transfer_kudos src dst amount).1.getUser src).kudos
            = round2 ((db.getUser src).kudos - amount)
        ∧ ((db.transfer_kudos src dst amount).1.getUser src).gifted
            = round2 ((db.getUser src).gifted - amount)
        ∧ ((db.transfer_kudos src dst amount).1.getUser dst).kudos
            = round2 ((db.getUser dst).kudos + amount)
        ∧ ((db.transfer_kudos src dst amount).1.getUser dst).received
            = round2 ((db.getUser dst).received + amount)
        ∧ (db.transfer_kudos src dst amount).2 = (amount, "OK")) := by
  refine ⟨?_, ?_, ?_⟩
  · intro h
    simp [Database.transfer_kudos, h]
  · intro db2 r msg heq hmsg
    unfold Database.transfer_kudos_from_apikey_to_username
      Database.transfer_kudos_to_username Database.transfer_kudos at heq
    split at heq
    · cases heq; rfl
    · split at heq
      · cases heq; rfl
      · split at heq
        · cases heq; rfl
        · split at heq
          · cases heq; rfl
          · split at heq
            · cases heq; rfl
            · split at heq
              · cases heq; rfl
              · cases heq; exact absurd rfl hmsg
  · intro h hne hs hd
    have hlen : (db.setUser src
        ((db.getUser src).modify_kudos (-amount) UserAction.gifted)).users.length
        = db.users.length := by
      simp [Database.setUser]
    have h1 : ((db.transfer_kudos src dst amount).1.getUser src)
        = (db.getUser src).modify_kudos (-amount) UserAction.gifted := by
      simp only [Database.transfer_kudos, if_neg h]
      rw [getUser_setUser_other _ dst src _ (fun hc => hne hc.symm),
          getUser_setUser_self _ _ _ hs]
    have h2 : ((db.transfer_kudos src dst amount).1.getUser dst)
        = (db.getUser dst).modify_kudos amount UserAction.received := by
      simp only [Database.transfer_kudos, if_neg h]
      rw [getUser_setUser_self _ _ _ (by rw [hlen]; exact hd),
          getUser_setUser_other _ _ _ _ hne]
    refine ⟨?_, ?_, ?_, ?_, ?_⟩
    · rw [h1]
      show round2 ((db.getUser src).kudos + -amount) = _
      rw [sub_eq_add_neg]
    · rw [h1]
      show round2 ((db.getUser src).gifted + -amount) = _
      rw [sub_eq_add_neg]
    · rw [h2]; rfl
    · rw [h2]; rfl
    · simp only [Database.transfer_kudos, if_neg h]

/-- C4.  `get_waiting_wp_by_kudos` returns exactly the prompts with `n > 0`
(as a permutation of — and with the same members as — the `needs_gen`
filtering of the index), its output is non-increasing in the submitting
user's kudos, and two prompts of equal submitter-kudos that both still need
generations appear in their insertion order (stability). -/
theorem c4_pending_by_priority_spec (l : List WaitingPrompt) :
    (get_waiting_wp_by_kudos l).Perm (l.filter fun wp => wp.needs_gen)
    ∧ (∀ wp : WaitingPrompt, wp ∈ get_waiting_wp_by_kudos l ↔ wp ∈ l ∧ wp.n > 0)
    ∧ (get_waiting_wp_by_kudos l).Pairwise
        (fun a b => b.user.kudos ≤ a.user.kudos)
    ∧ (∀ a b : WaitingPrompt, a.user.kudos = b.user.kudos →
        a.needs_gen = true → b.needs_gen = true →
        [a, b].Sublist l → [a, b].Sublist (get_waiting_wp_by_kudos l)) := by
  have htrans : ∀ a b c : WaitingPrompt,
      (decide (b.user.kudos ≤ a.user.kudos)) = true →
      (decide (c.user.kudos ≤ b.user.kudos)) = true →
      (decide (c.user.kudos ≤ a.user.kudos)) = true := by
    intro a b c h1 h2
    simp only [decide_eq_true_eq] at h1 h2 ⊢
    exact le_trans h2 h1
  have htotal : ∀ a b : WaitingPrompt,
      ((decide (b.user.kudos ≤ a.user.kudos))
        || (decide (a.user.kudos ≤ b.user.kudos))) = true := by
    intro a b
    simp only [Bool.or_eq_true, decide_eq_true_eq]
    exact le_total _ _
  refine ⟨?_, ?_, ?_, ?_⟩
  · exact (List.mergeSort_perm l _).filter _
  · intro wp
    simp [get_waiting_wp_by_kudos, List.mem_filter, List.mem_mergeSort,
      WaitingPrompt.needs_gen]
  · have hs := List.sorted_mergeSort htrans htotal l
    have hf : List.Pairwise
        (fun a b : WaitingPrompt => decide (b.user.kudos ≤ a.user.kudos) = true)
        (get_waiting_wp_by_kudos l) := by
      unfold get_waiting_wp_by_kudos
      exact List.Pairwise.sublist (List.filter_sublist _) hs
    exact hf.imp fun h => of_decide_eq_true h
  · intro a b hk ha hb hsub
    have h1 : [a, b].Sublist
        (l.mergeSort fun x y => decide (y.user.kudos ≤ x.user.kudos)) :=
      List.pair_sublist_mergeSort htrans htotal
        (by simp only [decide_eq_true_eq, hk, le_refl]) hsub
    have h2 := h1.filter (fun wp => wp.needs_gen)
    rwa [show List.filter (fun wp => wp.needs_gen) [a, b] = [a, b] by
      simp [ha, hb]] at h2

/-- `startsWith` decides the structural "b begins with a" relation. -/
theorem startsWith_iff (a b : List Char) :
    startsWith a b = true ↔ ∃ t, b = a ++ t := by
  induction a generalizing b with
  | nil =>
    simp only [startsWith, List.nil_append, true_iff]
    exact ⟨b, rfl⟩
  | cons x xs ih =>
    cases b with
    | nil =>
      simp [startsWith]
    | cons y ys =>
      simp only [startsWith, Bool.and_eq_true, beq_iff_eq, ih]
      constructor
      · rintro ⟨rfl, t, rfl⟩
        exact ⟨t, rfl⟩
      · rintro ⟨t, ht⟩
        injection ht with h1 h2
        exact ⟨h1.symm, t, h2⟩

/-- `isSubstr` decides the structural substring relation (Python's `in`). -/
theorem isSubstr_iff (a b : List Char) : isSubstr a b = true ↔ IsSub a b := by
  induction b with
  | nil =>
    simp only [isSubstr, List.isEmpty_iff, IsSub]
    constructor
    · rintro rfl
      exact ⟨[], [], rfl⟩
    · rintro ⟨s, t, h⟩
      rcases List.append_eq_nil.mp (List.append_eq_nil.mp h.symm).1 with ⟨-, h2⟩
      exact h2
  | cons y ys ih =>
    simp only [isSubstr, Bool.or_eq_true, startsWith_iff, ih, IsSub]
    constructor
    · rintro (⟨t, ht⟩ | ⟨s, t, rfl⟩)
      · exact ⟨[], t, by simpa using ht⟩
      · exact ⟨y :: s, t, rfl⟩
    · rintro ⟨s, t, h⟩
      cases s with
      | nil =>
        left
        exact ⟨t, by simpa using h⟩
      | cons z zs =>
        right
        injection h with h1 h2
        exact ⟨zs, t, h2⟩

/-- Negation of the membership-filter failure conditions of `can_generate`. -/
theorem filter_cond_iff (xs : List String) (x : String) :
    ¬(xs.length ≥ 1 ∧ x ∉ xs) ↔ (xs = [] ∨ x ∈ xs) := by
  constructor
  · intro h
    rcases not_and_or.mp h with h | h
    · left
      exact List.eq_nil_of_length_eq_zero (by omega)
    · right
      exact not_not.mp h
  · rintro (rfl | hmem) ⟨hlen, hnot⟩
    · simp at hlen
    · exact hnot hmem

/-- C5.  `can_generate` matches exactly when the five eligibility conditions
hold (pinned-worker list, model filter, both length capacities, soft-prompt
compatibility), and on a non-match the recorded `skipped_reason` is the tag
of the last failing check in the enumeration order `server_id`, `models`,
`max_content_length`, `max_length`, `matching_softprompt`. -/
theorem c5_can_generate_spec (s : KAIServer) (wp : WaitingPrompt) :
    ((s.can_generate wp).1 = true ↔
      (wp.servers = [] ∨ s.id ∈ wp.servers)
      ∧ (wp.models = [] ∨ s.model ∈ wp.models)
      ∧ wp.max_content_length ≤ s.max_content_length
      ∧ wp.max_length ≤ s.max_length
      ∧ (∃ sp ∈ wp.softprompts, sp = ""
          ∨ ∃ nm ∈ s.softprompts, IsSub sp.toList nm.toList))
    ∧ (s.can_generate wp).2 = lastFailingTag s wp := by
  have hsoft : (wp.softprompts.any fun sp =>
      sp == "" || s.softprompts.any fun nm => isSubstr sp.toList nm.toList) = true
      ↔ (∃ sp ∈ wp.softprompts, sp = ""
          ∨ ∃ nm ∈ s.softprompts, IsSub sp.toList nm.toList) := by
    simp [List.any_eq_true, isSubstr_iff]
  constructor
  · simp only [KAIServer.can_generate]
    split_ifs with hA hB hC hD hE
    · simp only [false_iff]
      rintro ⟨-, -, -, -, hex⟩
      rw [hsoft.mpr hex] at hA
      simp at hA
    · simp only [false_iff]
      rintro ⟨-, -, -, h4, -⟩
      exact absurd h4 (not_le.mpr hB)
    · simp only [false_iff]
      rintro ⟨-, -, h3, -, -⟩
      exact absurd h3 (not_le.mpr hC)
    · simp only [false_iff]
      rintro ⟨-, h2, -, -, -⟩
      exact ((filter_cond_iff _ _).mpr h2) hD
    · simp only [false_iff]
      rintro ⟨h1, -, -, -, -⟩
      exact ((filter_cond_iff _ _).mpr h1) hE
    · simp only [true_iff]
      exact ⟨(filter_cond_iff _ _).mp hE, (filter_cond_iff _ _).mp hD,
        not_lt.mp hC, not_lt.mp hB,
        hsoft.mp ((Bool.eq_false_or_eq_true _).resolve_right hA)⟩
  · simp only [KAIServer.can_generate, lastFailingTag]
    split_ifs <;> rfl

/-- C6.  Prompt construction stores the requested `n` when it is at most 20
and clamps it to 20 otherwise, and embeds `n = 1` into `gen_payload`;
`start_generation` never alters `gen_payload` and every dispatch record it
returns carries exactly the prompt's `gen_payload` — hence a payload whose
`n` field is 1 regardless of the requested `n`. -/
theorem c6_n_clamped_payload_n_one (p : String) (u : User) (models : List String)
    (params : GenParams) (sv sp : List String) (now : ℤ) :
    (params.n.getD 1 ≤ 20 →
      (WaitingPrompt.init p u models params sv sp now).n = params.n.getD 1)
    ∧ (params.n.getD 1 > 20 →
      (WaitingPrompt.init p u models params sv sp now).n = 20)
    ∧ (WaitingPrompt.init p u models params sv sp now).gen_payload.params.n = some 1
    ∧ (∀ (wp : WaitingPrompt) (server : KAIServer) (msp : String) (t : ℤ),
        ((wp.start_generation server msp t).1).gen_payload = wp.gen_payload)
    ∧ (∀ (wp : WaitingPrompt) (server : KAIServer) (msp : String) (t : ℤ)
        (d : DispatchRecord),
        (wp.start_generation server msp t).2 = some d → d.payload = wp.gen_payload) := by
  refine ⟨?_, ?_, rfl, ?_, ?_⟩
  · intro h
    simp only [WaitingPrompt.init]
    rw [if_neg (by omega)]
  · intro h
    simp only [WaitingPrompt.init]
    rw [if_pos h]
  · intro wp server msp t
    unfold WaitingPrompt.start_generation
    split <;> rfl
  · intro wp server msp t d heq
    unfold WaitingPrompt.start_generation at heq
    split at heq
    · cases heq
    · cases heq
      rfl

/-- C7.  A `check_in` on a stale worker touches none of the accounting state
(uptime, kudos, both kudos-details entries, performances, contributions,
fulfilments, the owning user's ledger), resets `last_reward_uptime` to the
current uptime, and overwrites exactly the declaration fields
`last_check_in`, `model`, `max_length`, `max_content_length`,
`softprompts`. -/
theorem c7_check_in_stale_frame (s : KAIServer) (now : ℤ) (mult : String → ℚ)
    (model : String) (max_length max_content_length : ℤ)
    (softprompts : List String) (h : s.is_stale now = true) :
    (s.check_in now mult model max_length max_content_length softprompts).uptime
        = s.uptime
    ∧ (s.check_in now mult model max_length max_content_length softprompts).kudos
        = s.kudos
    ∧ (s.check_in now mult model max_length max_content_length
        softprompts).kudos_generated = s.kudos_generated
    ∧ (s.check_in now mult model max_length max_content_length
        softprompts).kudos_uptime = s.kudos_uptime
    ∧ (s.check_in now mult model max_length max_content_length
        softprompts).performances = s.performances
    ∧ (s.check_in now mult model max_length max_content_length
        softprompts).contributions = s.contributions
    ∧ (s.check_in now mult model max_length max_content_length
        softprompts).fulfilments = s.fulfilments
    ∧ (s.check_in now mult model max_length max_content_length softprompts).user
        = s.user
    ∧ (s.check_in now mult model max_length max_content_length
        softprompts).last_reward_uptime = s.uptime
    ∧ (s.check_in now mult model max_length max_content_length
        softprompts).last_check_in = some now
    ∧ (s.check_in now mult model max_length max_content_length softprompts).model
        = model
    ∧ (s.check_in now mult model max_length max_content_length
        softprompts).max_length = max_length
    ∧ (s.check_in now mult model max_length max_content_length
        softprompts).max_content_length = max_content_length
    ∧ (s.check_in now mult model max_length max_content_length
        softprompts).softprompts = softprompts := by
  unfold KAIServer.check_in
  rw [h]
  norm_num

/-- Witness for `c7_check_in_stale_frame`: a brand-new worker (no check-in
recorded yet) is stale by definition. -/
theorem c7_check_in_stale_frame_witness :
    (KAIServer.check_in {} 0 (fun _ => 1) "m" 10 20 ["x"]).uptime
        = ({} : KAIServer).uptime
    ∧ (KAIServer.check_in {} 0 (fun _ => 1) "m" 10 20 ["x"]).kudos
        = ({} : KAIServer).kudos
    ∧ (KAIServer.check_in {} 0 (fun _ => 1) "m" 10 20 ["x"]).kudos_generated
        = ({} : KAIServer).kudos_generated
    ∧ (KAIServer.check_in {} 0 (fun _ => 1) "m" 10 20 ["x"]).kudos_uptime
        = ({} : KAIServer).kudos_uptime
    ∧ (KAIServer.check_in {} 0 (fun _ => 1) "m" 10 20 ["x"]).performances
        = ({} : KAIServer).performances
    ∧ (KAIServer.check_in {} 0 (fun _ => 1) "m" 10 20 ["x"]).contributions
        = ({} : KAIServer).contributions
    ∧ (KAIServer.check_in {} 0 (fun _ => 1) "m" 10 20 ["x"]).fulfilments
        = ({} : KAIServer).fulfilments
    ∧ (KAIServer.check_in {} 0 (fun _ => 1) "m" 10 20 ["x"]).user
        = ({} : KAIServer).user
    ∧ (KAIServer.check_in {} 0 (fun _ => 1) "m" 10 20 ["x"]).last_reward_uptime
        = ({} : KAIServer).uptime
    ∧ (KAIServer.check_in {} 0 (fun _ => 1) "m" 10 20 ["x"]).last_check_in
        = some 0
    ∧ (KAIServer.check_in {} 0 (fun _ => 1) "m" 10 20 ["x"]).model = "m"
    ∧ (KAIServer.check_in {} 0 (fun _ => 1) "m" 10 20 ["x"]).max_length = 10
    ∧ (KAIServer.check_in {} 0 (fun _ => 1) "m" 10 20 ["x"]).max_content_length
        = 20
    ∧ (KAIServer.check_in {} 0 (fun _ => 1) "m" 10 20 ["x"]).softprompts
        = ["x"] :=
  c7_check_in_stale_frame {} 0 (fun _ => 1) "m" 10 20 ["x"] rfl

/-- C8.  `n + len(processing_gens)` equals the clamped `n` at creation
(`processing_gens` starts empty) and is preserved by every operation:
`start_generation` is the identity when `n ≤ 0` and otherwise trades one
unit of `n` for exactly one appended Generation, while `record_usage` and
`set_generation` touch neither `n` nor the length of `processing_gens`. -/
theorem c8_n_plus_gens_invariant (p : String) (u : User) (models : List String)
    (params : GenParams) (sv sp : List String) (now : ℤ) (wp : WaitingPrompt)
    (server : KAIServer) (msp : String) (t : ℤ) (chars : ℤ) (kudos : ℚ)
    (st : SGState) (text : String) (mult : String → ℚ) :
    (WaitingPrompt.init p u models params sv sp now).processing_gens = []
    ∧ ((wp.start_generation server msp t).1).n
        + (((wp.start_generation server msp t).1).processing_gens.length : ℤ)
        = wp.n + (wp.processing_gens.length : ℤ)
    ∧ (wp.n ≤ 0 → (wp.start_generation server msp t).1 = wp)
    ∧ (wp.n > 0 →
        ((wp.start_generation server msp t).1).n = wp.n - 1
        ∧ ((wp.start_generation server msp t).1).processing_gens.length
            = wp.processing_gens.length + 1)
    ∧ (wp.record_usage chars kudos t).n = wp.n
    ∧ (wp.record_usage chars kudos t).processing_gens = wp.processing_gens
    ∧ (∀ st2 c, set_generation st text t mult = some (st2, c) →
        st2.owner.n = st.owner.n
        ∧ st2.owner.processing_gens.length = st.owner.processing_gens.length) := by
  refine ⟨rfl, ?_, ?_, ?_, rfl, rfl, ?_⟩
  · unfold WaitingPrompt.start_generation
    split
    · rfl
    · simp only [List.length_append, List.length_cons, List.length_nil]
      push_cast
      ring
  · intro h
    unfold WaitingPrompt.start_generation
    rw [if_pos h]
  · intro h
    unfold WaitingPrompt.start_generation
    rw [if_neg (by omega)]
    exact ⟨rfl, by simp⟩
  · intro st2 c heq
    unfold set_generation at heq
    split at heq
    · cases heq
      exact ⟨rfl, rfl⟩
    · dsimp only at heq
      split at heq
      · cases heq
      · cases heq
        exact ⟨rfl, rfl⟩

/-- C9 counterexample.  The claim asserts every negative-amount transfer
between distinct resolving non-anonymous users passes the balance check and
returns `(amount, "OK")`; but with alice's balance at -10 the transfer of -5
(indeed a pair of distinct non-anonymous users, destination resolving) hits
`amount > source.kudos` (-5 > -10) and fails with `Not enough kudos.`. -/
theorem c9_negative_transfer_counterexample :
    (sampleUsers (-10)).find_user_by_username "bob" 2 = some 2
    ∧ (1 : ℕ) ≠ (sampleUsers (-10)).anon
    ∧ (2 : ℕ) ≠ (sampleUsers (-10)).anon
    ∧ ((sampleUsers (-10)).transfer_kudos 1 2 (-5)).2
        = ((0 : ℚ), "Not enough kudos.")
    ∧ ((0 : ℚ), "Not enough kudos.") ≠ ((-5 : ℚ), "OK") := by
  refine ⟨by decide, by decide, by decide, ?_, ?_⟩
  · have hgt : (-5 : ℚ) > ((sampleUsers (-10)).getUser 1).kudos := by
      norm_num [Database.getUser, sampleUsers]
    unfold Database.transfer_kudos
    rw [if_pos hgt]
  · intro hcon
    injection hcon with ha hb
    norm_num at ha

/-- C9, amended.  The transfer operation indeed places no lower bound on the
amount, but the balance check still applies to it: for a negative amount
that does not exceed the source's balance (in particular, whenever the
source balance is non-negative) the check passes, `(amount, "OK")` is
returned, and the kudos flow backwards — the source gains `|amount|` and
the destination loses `|amount|` (each rounded to two decimals). -/
theorem c9_negative_transfer_amended (db : Database) (src dst : ℕ) (amount : ℚ)
    (hneg : amount < 0) (hbal : ¬ amount > (db.getUser src).kudos)
    (hne : src ≠ dst) (hs : src < db.users.length) (hd : dst < db.users.length) :
    (db.transfer_kudos src dst amount).2 = (amount, "OK")
    ∧ ((db.transfer_kudos src dst amount).1.getUser src).kudos
        = round2 ((db.getUser src).kudos + |amount|)
    ∧ ((db.transfer_kudos src dst amount).1.getUser dst).kudos
        = round2 ((db.getUser dst).kudos - |amount|) := by
  have habs : |amount| = -amount := abs_of_neg hneg
  have hlen : (db.setUser src
      ((db.getUser src).modify_kudos (-amount) UserAction.gifted)).users.length
      = db.users.length := by
    simp [Database.setUser]
  have h1 : ((db.transfer_kudos src dst amount).1.getUser src)
      = (db.getUser src).modify_kudos (-amount) UserAction.gifted := by
    simp only [Database.transfer_kudos, if_neg hbal]
    rw [getUser_setUser_other _ dst src _ (fun hc => hne hc.symm),
        getUser_setUser_self _ _ _ hs]
  have h2 : ((db.transfer_kudos src dst amount).1.getUser dst)
      = (db.getUser dst).modify_kudos amount UserAction.received := by
    simp only [Database.transfer_kudos, if_neg hbal]
    rw [getUser_setUser_self _ _ _ (by rw [hlen]; exact hd),
        getUser_setUser_other _ _ _ _ hne]
  refine ⟨?_, ?_, ?_⟩
  · simp only [Database.transfer_kudos, if_neg hbal]
  · rw [h1, habs]
    rfl
  · rw [h2, habs, sub_neg_eq_add]
    rfl

/-- Witness for `c9_negative_transfer_amended`: with alice's balance at 10,
the -5 transfer from alice to bob succeeds and moves 5 kudos from bob to
alice. -/
theorem c9_negative_transfer_amended_witness :
    ((sampleUsers 10).transfer_kudos 1 2 (-5)).2 = ((-5 : ℚ), "OK")
    ∧ (((sampleUsers 10).transfer_kudos 1 2 (-5)).1.getUser 1).kudos
        = round2 (((sampleUsers 10).getUser 1).kudos + |(-5 : ℚ)|)
    ∧ (((sampleUsers 10).transfer_kudos 1 2 (-5)).1.getUser 2).kudos
        = round2 (((sampleUsers 10).getUser 2).kudos - |(-5 : ℚ)|) :=
  c9_negative_transfer_amended (sampleUsers 10) 1 2 (-5) (by norm_num)
    (by norm_num [Database.getUser, sampleUsers]) (by norm_num)
    (by norm_num [sampleUsers]) (by norm_num [sampleUsers])

/-- C10.  `set_generation("")` on a not-yet-completed generation stores the
empty string yet leaves the generation not completed (`is_completed` is the
truthiness of the stored text), records a zero-character contribution
against the worker and its user and a zero-character usage against the
prompt (each settling event still counts one fulfilment and one request),
and returns 0 characters.  Moreover the already-completed guard is not
armed: on any generation holding the empty string — such as the state this
call leaves — a later successful `set_generation` does not take the early
no-op path but overwrites the stored text and settles kudos a second time.
(The elapsed-seconds hypothesis dodges the independent division-by-zero
defect of C2.) -/
theorem c10_set_generation_empty (st : SGState) (t : ℤ) (mult : String → ℚ)
    (h1 : st.gen.generation = none) (h2 : ¬ t - st.gen.start_time = 0) :
    (∃ st2, set_generation st "" t mult = some (st2, 0)
      ∧ st2.gen.generation = some ""
      ∧ st2.gen.is_completed = false
      ∧ st2.server.contributions = st.server.contributions
      ∧ st2.server.fulfilments = st.server.fulfilments + 1
      ∧ st2.server.user.contrib_chars = st.server.user.contrib_chars
      ∧ st2.server.user.contrib_fulfillments
          = st.server.user.contrib_fulfillments + 1
      ∧ st2.owner.total_usage = st.owner.total_usage
      ∧ st2.owner.user.usage_chars = st.owner.user.usage_chars
      ∧ st2.owner.user.usage_requests = st.owner.user.usage_requests + 1)
    ∧ (∀ st4 : SGState, st4.gen.generation = some "" →
        st4.gen.is_completed = false
        ∧ (∀ (text2 : String) (t2 : ℤ) (mult2 : String → ℚ) (st3 : SGState)
            (c2 : ℤ), set_generation st4 text2 t2 mult2 = some (st3, c2) →
            st3.gen.generation = some text2
            ∧ st3.server.fulfilments = st4.server.fulfilments + 1
            ∧ c2 = (text2.length : ℤ))) := by
  constructor
  · have hc : st.gen.is_completed = false := by
      simp [ProcessingGeneration.is_completed, h1]
    unfold set_generation
    rw [hc]
    simp only [Bool.false_eq_true, if_false]
    unfold KAIServer.record_contribution
    rw [if_neg (by simpa using h2)]
    dsimp only
    refine ⟨_, rfl, rfl, rfl, ?_, ?_, ?_, ?_, ?_, ?_, ?_⟩
    · simp [KAIServer.modify_kudos]
    · simp [KAIServer.modify_kudos]
    · simp [KAIServer.modify_kudos, User.record_contributions, User.modify_kudos,
        User.setDetail]
    · simp [KAIServer.modify_kudos, User.record_contributions, User.modify_kudos,
        User.setDetail]
    · simp [WaitingPrompt.record_usage]
    · simp [WaitingPrompt.record_usage, User.record_usage, User.modify_kudos,
        User.setDetail]
    · simp [WaitingPrompt.record_usage, User.record_usage, User.modify_kudos,
        User.setDetail]
  · intro st4 hgen
    have hc4 : st4.gen.is_completed = false := by
      unfold ProcessingGeneration.is_completed
      rw [hgen]
      decide
    refine ⟨hc4, ?_⟩
    intro text2 t2 mult2 st3 c2 heq
    unfold set_generation at heq
    rw [hc4] at heq
    simp only [Bool.false_eq_true, if_false] at heq
    unfold KAIServer.record_contribution at heq
    split at heq
    · cases heq
    · rename_i x4 server4 ft4 hscrut
      cases heq
      split at hscrut
      · cases hscrut
      · cases hscrut
        exact ⟨rfl, by simp [KAIServer.modify_kudos], rfl⟩

/-- Witness for `c10_set_generation_empty`: a fresh generation delivered the
empty string one second after it started. -/
theorem c10_set_generation_empty_witness :
    (∃ st2, set_generation {} "" 1 (fun _ => 1) = some (st2, 0)
      ∧ st2.gen.generation = some ""
      ∧ st2.gen.is_completed = false
      ∧ st2.server.contributions = ({} : SGState).server.contributions
      ∧ st2.server.fulfilments = ({} : SGState).server.fulfilments + 1
      ∧ st2.server.user.contrib_chars = ({} : SGState).server.user.contrib_chars
      ∧ st2.server.user.contrib_fulfillments
          = ({} : SGState).server.user.contrib_fulfillments + 1
      ∧ st2.owner.total_usage = ({} : SGState).owner.total_usage
      ∧ st2.owner.user.usage_chars = ({} : SGState).owner.user.usage_chars
      ∧ st2.owner.user.usage_requests
          = ({} : SGState).owner.user.usage_requests + 1)
    ∧ (∀ st4 : SGState, st4.gen.generation = some "" →
        st4.gen.is_completed = false
        ∧ (∀ (text2 : String) (t2 : ℤ) (mult2 : String → ℚ) (st3 : SGState)
            (c2 : ℤ), set_generation st4 text2 t2 mult2 = some (st3, c2) →
            st3.gen.generation = some text2
            ∧ st3.server.fulfilments = st4.server.fulfilments + 1
            ∧ c2 = (text2.length : ℤ))) :=
  c10_set_generation_empty {} 1 (fun _ => 1) rfl (by decide)
